import Mathlib

/-!
Shallow embedding of the probe & trace-correlation engine of `src/audit.py`
(chutes-audit).  The embedding covers:

* the two trace-message extractors `_extract_target` (line 289) and
  `_extract_target_error` (line 307), including a faithful model of the
  Python regular expressions `query target=([^ ]+) uid=([0-9+]+) hotkey=([^ ]+)`
  and `error encountered while querying target=([^ ]+) uid=([0-9]+)
  hotkey=([^ ]+) coldkey=[^ ]+: (.*)` under `re.search` semantics
  (leftmost match; each greedy character-class group followed by a literal
  that starts with a character excluded from the class matches exactly the
  maximal run of class characters);
* the per-chunk correlation step of `_perform_request` (lines 236-262):
  appending a `Synthetic` record on a routing trace, flipping `has_error`
  on the last-appended record on an error trace, with the `assert`
  statements and `synthetics[-1]` indexing modelled as raised errors;
* the surrounding control flow: the catch-all `except Exception` of
  `_perform_request` (lines 264-266) which turns any raised error into a
  `None` result, `_perform_chat` (line 325) including the
  `len(synthetics)` call on line 333 which raises `TypeError` when
  `_perform_request` returned `None`, `_get_vllm_chute` (line 207),
  `perform_synthetic` (line 336) with its persistence step, and the
  `perform_synthetics` loop (line 373).

Network input is modelled explicitly: an `HttpResponse` carries the status
code, the optional `X-Chutes-InvocationID` header and the SSE content as a
list of stream items (a chunk without the `data: ` framing prefix, a
malformed JSON payload, a well-formed payload, or a transport failure
raised while iterating `resp.content`).  Randomness (`random.choice`) is
modelled by an index parameter.  Logging calls have no effect on the
state and are not modelled; `created_at = func.now()` is a server-side
timestamp and is omitted from the record model.
-/

namespace ChutesAudit

deriving instance DecidableEq for Except

/-- Character class `[^ ]` of the Python patterns: any character except a
space (note: this is not the same as non-whitespace; tabs match). -/
def nonSpace (c : Char) : Bool := c ≠ ' '

/-- Character class `[0-9+]` used by the `uid` group of the routing
pattern in `_extract_target` (line 297). -/
def uidChar (c : Char) : Bool := c.isDigit || c = '+'

/-- Character class `[0-9]` used by the `uid` group of the error pattern
in `_extract_target_error` (line 315). -/
def digitChar (c : Char) : Bool := c.isDigit

/-- Matching a literal piece of a pattern at the current position:
returns the remaining input on success. -/
def stripLit : List Char → List Char → Option (List Char)
  | [], s => some s
  | _ :: _, [] => none
  | c :: cs, d :: ds => if c = d then stripLit cs ds else none

/-- The literal `query target=` of the routing pattern. -/
def qLit : List Char := "query target=".data

/-- The literal ` uid=` shared by both patterns. -/
def uidLit : List Char := " uid=".data

/-- The literal ` hotkey=` shared by both patterns. -/
def hkLit : List Char := " hotkey=".data

/-- The literal `error encountered while querying target=` of the error
pattern. -/
def errLit : List Char := "error encountered while querying target=".data

/-- The literal ` coldkey=` of the error pattern. -/
def ckLit : List Char := " coldkey=".data

/-- Attempt to match `query target=([^ ]+) uid=([0-9+]+) hotkey=([^ ]+)`
anchored at the current position.  Each greedy group is followed either by
a literal starting with a space (excluded from the group's class) or by
the end of the pattern, so the group matches exactly the maximal run of
its class characters; shorter backtracking candidates always fail. -/
def matchQueryAt (s : List Char) : Option (String × String × String) :=
  match stripLit qLit s with
  | none => none
  | some r1 =>
    let i := r1.takeWhile nonSpace
    let r2 := r1.dropWhile nonSpace
    if i = [] then none else
    match stripLit uidLit r2 with
    | none => none
    | some r3 =>
      let u := r3.takeWhile uidChar
      let r4 := r3.dropWhile uidChar
      if u = [] then none else
      match stripLit hkLit r4 with
      | none => none
      | some r5 =>
        let h := r5.takeWhile nonSpace
        if h = [] then none else
        some (i.asString, u.asString, h.asString)

/-- The `re.search` over the routing pattern: try every start position,
leftmost first, exactly as the Python engine does. -/
def searchQuery : List Char → Option (String × String × String)
  | [] => none
  | a :: l =>
    match matchQueryAt (a :: l) with
    | some t => some t
    | none => searchQuery l

/-- Attempt to match `error encountered while querying target=([^ ]+)
uid=([0-9]+) hotkey=([^ ]+) coldkey=[^ ]+: (.*)` anchored at the current
position.  For the uncaptured `[^ ]+` before `: `, greedy backtracking
succeeds only when the maximal non-space run has length at least two and
ends in `:`, with a space following the run; the run minus the final `:`
is the coldkey text.  `(.*)` captures up to the next newline (the dot
does not match a newline). -/
def matchErrAt (s : List Char) : Option (String × String × String × String) :=
  match stripLit errLit s with
  | none => none
  | some r1 =>
    let i := r1.takeWhile nonSpace
    let r2 := r1.dropWhile nonSpace
    if i = [] then none else
    match stripLit uidLit r2 with
    | none => none
    | some r3 =>
      let u := r3.takeWhile digitChar
      let r4 := r3.dropWhile digitChar
      if u = [] then none else
      match stripLit hkLit r4 with
      | none => none
      | some r5 =>
        let h := r5.takeWhile nonSpace
        let r6 := r5.dropWhile nonSpace
        if h = [] then none else
        match stripLit ckLit r6 with
        | none => none
        | some r7 =>
          let ck := r7.takeWhile nonSpace
          let r8 := r7.dropWhile nonSpace
          match r8 with
          | ' ' :: rest =>
            if 2 ≤ ck.length ∧ ck.getLast? = some ':' then
              some (i.asString, u.asString, h.asString,
                    (rest.takeWhile (fun c => c ≠ '\n')).asString)
            else none
          | _ => none

/-- The `re.search` over the error pattern. -/
def searchErr : List Char → Option (String × String × String × String)
  | [] => none
  | a :: l =>
    match matchErrAt (a :: l) with
    | some t => some t
    | none => searchErr l

/-- The pydantic model `Target` (line 105).  `invocation_id: str` is a
required string field, so constructing a `Target` from a missing
(`None`) invocation id raises a validation error; this failure mode is
modelled in the extractors, not here.  `error: str = None` defaults to
`None`. -/
structure Target where
  instance_id : String
  invocation_id : String
  uid : String
  hotkey : String
  error : Option String
deriving DecidableEq

/-- The per-chunk `trace` object of a decoded SSE payload, as read by
`_extract_target`, `_extract_target_error` and `_debug_target`.  Each
field models `dict.get`/`dict[...]` access on the decoded JSON. -/
structure Trace where
  timestamp : Option String
  invocation_id : Option String
  message : Option String
deriving DecidableEq

/-- A decoded SSE payload (the `data` dict of `_perform_request` line
239).  `error` and `result` (lines 259-262) only produce log output. -/
structure Chunk where
  trace : Option Trace
  error : Option String
  result : Option String
deriving DecidableEq

/-- Errors raised inside the extractors: `re.search(pattern, None)`
raises `TypeError` when the trace has no `message` key, and the pydantic
`Target` constructor raises a validation error when `invocation_id` is
`None` (it must be a string). -/
inductive ExtractError
  | typeErrMessage
  | validation
deriving DecidableEq

/-- `_extract_target` (lines 289-305): no trace field classifies as
`None`; a present trace without a message raises `TypeError` at
`re.search`; a routing match builds a `Target`, raising a validation
error when the trace carries no `invocation_id`. -/
def extract_target (c : Chunk) : Except ExtractError (Option Target) :=
  match c.trace with
  | none => .ok none
  | some tr =>
    match tr.message with
    | none => .error .typeErrMessage
    | some msg =>
      match searchQuery msg.data with
      | none => .ok none
      | some (i, u, h) =>
        match tr.invocation_id with
        | none => .error .validation
        | some v =>
          .ok (some { instance_id := i, invocation_id := v, uid := u,
                      hotkey := h, error := none })

/-- `_extract_target_error` (lines 307-323): same shape as
`extract_target` but over the error pattern, filling the `error` field
with the captured trailing text. -/
def extract_target_error (c : Chunk) : Except ExtractError (Option Target) :=
  match c.trace with
  | none => .ok none
  | some tr =>
    match tr.message with
    | none => .error .typeErrMessage
    | some msg =>
      match searchErr msg.data with
      | none => .ok none
      | some (i, u, h, err) =>
        match tr.invocation_id with
        | none => .error .validation
        | some v =>
          .ok (some { instance_id := i, invocation_id := v, uid := u,
                      hotkey := h, error := some err })

/-- The durable `Synthetic` record (table `synthetics`, lines 93-102),
without the server-assigned `created_at` timestamp. -/
structure Synthetic where
  parent_invocation_id : String
  invocation_id : String
  instance_id : String
  chute_id : String
  miner_uid : String
  miner_hotkey : String
  has_error : Bool
deriving DecidableEq

/-- Errors that can be raised while processing one stream chunk inside
`_perform_request`: a JSON decode failure of `json.loads` (line 239), an
extractor failure, the `KeyError` of `_debug_target` reading
`chunk["trace"]["timestamp"]` (line 275), the `IndexError` of
`synthetics[-1]` on an empty list (line 256), the `AssertionError` of
the identity asserts (lines 256-257), and a transport error raised while
iterating `resp.content` (line 236). -/
inductive CycleError
  | jsonDecode
  | extractErr (e : ExtractError)
  | keyErrTimestamp
  | indexErr
  | assertionErr
  | ioErr
deriving DecidableEq

/-- The `Synthetic` built on lines 243-252 from a routing target. -/
def mkSynthetic (parentId chuteId : String) (t : Target) : Synthetic :=
  { parent_invocation_id := parentId
    invocation_id := t.invocation_id
    instance_id := t.instance_id
    chute_id := chuteId
    miner_uid := t.uid
    miner_hotkey := t.hotkey
    has_error := false }

/-- Lines 243-252: a routing trace appends a fresh record with
`has_error=False`. -/
def ingestRouting (parentId chuteId : String) (recs : List Synthetic)
    (t : Target) : List Synthetic :=
  recs ++ [mkSynthetic parentId chuteId t]

/-- Lines 253-258: an error trace asserts that its `instance_id` and
`invocation_id` equal those of `synthetics[-1]` and then sets that
record's `has_error` to `True`.  On an empty list the `synthetics[-1]`
subscript raises `IndexError`; on a mismatch the `assert` raises
`AssertionError`. -/
def ingestRoutingError (recs : List Synthetic) (t : Target) :
    Except CycleError (List Synthetic) :=
  match recs.getLast? with
  | none => .error .indexErr
  | some last =>
    if t.instance_id = last.instance_id then
      if t.invocation_id = last.invocation_id then
        .ok (recs.dropLast ++ [{ last with has_error := true }])
      else .error .assertionErr
    else .error .assertionErr

/-- Lines 240-262 for one decoded payload: try the routing extractor
first (its exceptions propagate), then the error extractor; the
`data.get("error")` and `data.get("result")` branches only log.  On a
routing match, `_debug_target` (line 242) reads
`chunk["trace"]["timestamp"]`, raising `KeyError` when absent. -/
def processChunk (parentId chuteId : String) (recs : List Synthetic)
    (c : Chunk) : Except CycleError (List Synthetic) :=
  match extract_target c with
  | .error e => .error (.extractErr e)
  | .ok (some t) =>
    match c.trace with
    | none => .error .keyErrTimestamp
    | some tr =>
      match tr.timestamp with
      | none => .error .keyErrTimestamp
      | some _ => .ok (ingestRouting parentId chuteId recs t)
  | .ok none =>
    match extract_target_error c with
    | .error e => .error (.extractErr e)
    | .ok (some t) => ingestRoutingError recs t
    | .ok none => .ok recs

/-- One item observed while iterating `resp.content` (line 236): a chunk
that is empty or lacks the `data: ` prefix (skipped by line 237-238), a
`data: ` chunk whose JSON payload is malformed (`json.loads` raises) or
well-formed, or a transport failure raised by the iteration itself. -/
inductive StreamItem
  | noData
  | dataMalformed
  | dataChunk (c : Chunk)
  | ioFailure
deriving DecidableEq

/-- Processing of one stream item inside the `async for` loop. -/
def processItem (parentId chuteId : String) (recs : List Synthetic) :
    StreamItem → Except CycleError (List Synthetic)
  | .noData => .ok recs
  | .dataMalformed => .error .jsonDecode
  | .dataChunk c => processChunk parentId chuteId recs c
  | .ioFailure => .error .ioErr

/-- The `async for` loop of `_perform_request` under the catch-all
`except Exception` (lines 264-266): any raised error makes the whole
function return `None`, discarding the records accumulated so far;
normal completion returns the accumulated records. -/
def runStream (parentId chuteId : String) :
    List Synthetic → List StreamItem → Option (List Synthetic)
  | recs, [] => some recs
  | recs, item :: rest =>
    match processItem parentId chuteId recs item with
    | .ok recs2 => runStream parentId chuteId recs2 rest
    | .error _ => none

/-- The observable part of the probe endpoint's HTTP response: the
status code, the optional `X-Chutes-InvocationID` header, and the SSE
stream. -/
structure HttpResponse where
  status : Nat
  parentHeader : Option String
  content : List StreamItem
deriving DecidableEq

/-- `_perform_request` (lines 223-266): a non-200 status returns with no
value (line 234, `None`); a missing `X-Chutes-InvocationID` header makes
line 235 raise `KeyError`, caught by the catch-all (result `None`);
otherwise the stream is consumed. -/
def perform_request (chuteId : String) (resp : HttpResponse) :
    Option (List Synthetic) :=
  if resp.status ≠ 200 then none
  else
    match resp.parentHeader with
    | none => none
    | some parentId => runStream parentId chuteId [] resp.content

/-- One instance of a chute from the fleet snapshot, with the two flags
tested by `_get_vllm_chute`. -/
structure ChuteInstance where
  active : Bool
  verified : Bool
deriving DecidableEq

/-- A chute from the fleet snapshot, with the fields tested or used by
`_get_vllm_chute` and `_perform_request`. -/
structure Chute where
  chute_id : String
  name : String
  standard_template : String
  instances : List ChuteInstance
deriving DecidableEq

/-- The hard-coded model name on line 216. -/
def deepseekName : String := "deepseek-ai/DeepSeek-R1-Distill-Qwen-32B"

/-- The filter on lines 211-217: template `vllm`, at least one instance
both active and verified, and the hard-coded name. -/
def vllmChutes (chutes : List Chute) : List Chute :=
  chutes.filter fun c =>
    c.standard_template == "vllm"
      && c.instances.any (fun inst => inst.active && inst.verified)
      && c.name == deepseekName

/-- `_get_vllm_chute` (lines 207-221): `None` when the filtered list is
empty, otherwise `random.choice`, modelled by an index parameter. -/
def get_vllm_chute (chutes : List Chute) (pick : Nat) : Option Chute :=
  let cs := vllmChutes chutes
  if cs = [] then none
  else cs.get? (pick % cs.length)

/-- Python-level exceptions that escape a cycle: the `TypeError` raised
by `len(synthetics)` on line 333 when `_perform_request` returned
`None`, and a database error re-raised by `get_session` (line 45) when
the commit of `perform_synthetic` fails. -/
inductive PyError
  | typeErr
  | dbErr
deriving DecidableEq

/-- `_perform_chat` (lines 325-334): returns `None` when no chute is
eligible (line 330); otherwise performs the request and then evaluates
`len(synthetics)` on line 333, which raises `TypeError` whenever
`_perform_request` returned `None`.  The request payload and URL do not
influence the correlation state and are not modelled. -/
def perform_chat (chutes : List Chute) (pick : Nat) (resp : HttpResponse) :
    Except PyError (Option (List Synthetic)) :=
  match get_vllm_chute chutes pick with
  | none => .ok none
  | some chute =>
    match perform_request chute.chute_id resp with
    | none => .error .typeErr
    | some syns => .ok (some syns)

/-- `perform_synthetic` (lines 336-359): the chute snapshot stands for
the result of `load_chutes`; a falsy result (`None` or `[]`, line 353)
returns before the persistence block, so the session is never opened for
an empty batch; otherwise the batch is committed inside `get_session`,
whose commit failure rolls the batch back and re-raises.  The result is
`some batch` when the persistence boundary was invoked and committed
`batch`, `none` when it was never invoked; a raised exception propagates
to the caller. -/
def perform_synthetic (chutes : List Chute) (pick : Nat)
    (resp : HttpResponse) (commitOk : Bool) :
    Except PyError (Option (List Synthetic)) :=
  match perform_chat chutes pick resp with
  | .error e => .error e
  | .ok none => .ok none
  | .ok (some []) => .ok none
  | .ok (some syns) => if commitOk then .ok (some syns) else .error .dbErr

/-- The external inputs of one iteration of the `perform_synthetics`
loop. -/
structure CycleInput where
  chutes : List Chute
  pick : Nat
  resp : HttpResponse
  commitOk : Bool
deriving DecidableEq

/-- `perform_synthetics` (lines 373-379): `while self._running: await
self.perform_synthetic(); await asyncio.sleep(60)` with no exception
handling, so an exception raised by any cycle propagates and terminates
the loop; later cycles never run.  The result collects the outcome of
each completed cycle and the exception that ended the loop, if any. -/
def perform_synthetics :
    List CycleInput → List (Option (List Synthetic)) × Option PyError
  | [] => ([], none)
  | ci :: rest =>
    match perform_synthetic ci.chutes ci.pick ci.resp ci.commitOk with
    | .error e => ([], some e)
    | .ok r =>
      let tail := perform_synthetics rest
      (r :: tail.1, tail.2)

/-! Concrete fixtures used by the example-level theorems. -/

/-- A routing-trace payload announcing instance `i1`. -/
def chunkA : Chunk :=
  { trace := some { timestamp := some "t1", invocation_id := some "v1",
                    message := some "query target=i1 uid=1 hotkey=h1" },
    error := none, result := none }

/-- A routing-trace payload announcing instance `i2`. -/
def chunkB : Chunk :=
  { trace := some { timestamp := some "t2", invocation_id := some "v2",
                    message := some "query target=i2 uid=2 hotkey=h2" },
    error := none, result := none }

/-- An error-trace payload for instance `i1`. -/
def chunkErrA : Chunk :=
  { trace := some { timestamp := none, invocation_id := some "v1",
                    message := some "error encountered while querying target=i1 uid=1 hotkey=h1 coldkey=ck: boom" },
    error := none, result := none }

/-- An error-trace payload for instance `i2`. -/
def chunkErrB : Chunk :=
  { trace := some { timestamp := none, invocation_id := some "v2",
                    message := some "error encountered while querying target=i2 uid=2 hotkey=h2 coldkey=ck: boom2" },
    error := none, result := none }

/-- The record produced from `chunkA` under parent `p0` and chute `c0`. -/
def recA : Synthetic :=
  { parent_invocation_id := "p0", invocation_id := "v1", instance_id := "i1",
    chute_id := "c0", miner_uid := "1", miner_hotkey := "h1", has_error := false }

/-- The record produced from `chunkB` under parent `p0` and chute `c0`. -/
def recB : Synthetic :=
  { parent_invocation_id := "p0", invocation_id := "v2", instance_id := "i2",
    chute_id := "c0", miner_uid := "2", miner_hotkey := "h2", has_error := false }

/-- An eligible chute: template `vllm`, one active and verified
instance, the hard-coded name. -/
def goodChute : Chute :=
  { chute_id := "c0", name := deepseekName, standard_template := "vllm",
    instances := [{ active := true, verified := true }] }

/-- A successful response whose stream contains only `chunkA`. -/
def respOnlyA : HttpResponse :=
  { status := 200, parentHeader := some "p0",
    content := [.dataChunk chunkA] }

/-- A routing-trace payload whose trace carries no `invocation_id`. -/
def chunkNoInvId : Chunk :=
  { trace := some { timestamp := some "ts", invocation_id := none,
                    message := some "query target=i9 uid=9 hotkey=h9" },
    error := none, result := none }

/-- A non-whitespace uid (`x`) that is outside the `[0-9+]` class. -/
def chunkUidAlpha : Chunk :=
  { trace := some { timestamp := some "ts", invocation_id := some "v1",
                    message := some "query target=i1 uid=x hotkey=h1" },
    error := none, result := none }

/-- A response whose stream is interrupted by a transport failure after
one routing event was ingested. -/
def respInterrupted : HttpResponse :=
  { status := 200, parentHeader := some "p0",
    content := [.dataChunk chunkA, .ioFailure] }

/-- A response rejected with a non-success status code. -/
def respRejected : HttpResponse :=
  { status := 500, parentHeader := some "p0", content := [] }

/-- A response whose stream contains a malformed JSON payload between
two routing events. -/
def respMalformedMid : HttpResponse :=
  { status := 200, parentHeader := some "p0",
    content := [.dataChunk chunkA, .dataMalformed, .dataChunk chunkB] }

/-- The same stream as `respMalformedMid` without the malformed chunk. -/
def respTwoEvents : HttpResponse :=
  { status := 200, parentHeader := some "p0",
    content := [.dataChunk chunkA, .dataChunk chunkB] }

/-- A response whose stream holds a routing event followed by a payload
that raises the pydantic validation error of `chunkNoInvId`. -/
def respWithBadTrace : HttpResponse :=
  { status := 200, parentHeader := some "p0",
    content := [.dataChunk chunkA, .dataChunk chunkNoInvId] }

/-- A response whose stream opens with an error trace that has no
preceding routing event. -/
def respOrphanErr : HttpResponse :=
  { status := 200, parentHeader := some "p0",
    content := [.dataChunk chunkErrA] }

/-- An error target whose identity does not match `recA`. -/
def tMismatch : Target :=
  { instance_id := "iX", invocation_id := "v9", uid := "1",
    hotkey := "h1", error := none }

/-- An error target arriving before any routing event. -/
def tOrphan : Target :=
  { instance_id := "i1", invocation_id := "v1", uid := "1",
    hotkey := "h1", error := some "boom" }

/-- A loop iteration whose cycle produces one record but whose commit
fails. -/
def cycleFailCommit : CycleInput :=
  { chutes := [goodChute], pick := 0, resp := respOnlyA, commitOk := false }

/-- A loop iteration whose cycle produces one record and commits it. -/
def cycleOk : CycleInput :=
  { chutes := [goodChute], pick := 0, resp := respOnlyA, commitOk := true }

/-- A chute whose only instance is active but not verified. -/
def chuteUnverified : Chute :=
  { chute_id := "c9", name := deepseekName, standard_template := "vllm",
    instances := [{ active := true, verified := false }] }

/-! Helper lemmas about the pattern matcher. -/

/-- Matching a literal against itself followed by anything succeeds and
returns the rest. -/
theorem stripLit_append (l s : List Char) : stripLit l (l ++ s) = some s := by
  induction l with
  | nil => rfl
  | cons c cs ih => simp [stripLit, ih]

/-- A run of class characters followed by input whose head is outside
the class splits exactly at the boundary under `takeWhile`/`dropWhile`. -/
theorem span_exact (p : Char → Bool) (l2 : List Char)
    (h2 : ∀ c, l2.head? = some c → p c = false) :
    ∀ l1 : List Char, (∀ c ∈ l1, p c = true) →
      (l1 ++ l2).takeWhile p = l1 ∧ (l1 ++ l2).dropWhile p = l2 := by
  intro l1
  induction l1 with
  | nil =>
    intro _
    cases l2 with
    | nil => exact ⟨rfl, rfl⟩
    | cons b t =>
      have hb : p b = false := h2 b rfl
      constructor
      · simp [List.takeWhile, hb]
      · simp [List.dropWhile, hb]
  | cons a t ih =>
    intro h1
    have ha : p a = true := h1 a (List.mem_cons_self a t)
    have iht := ih fun c hc => h1 c (List.mem_cons_of_mem a hc)
    constructor
    · simp [List.takeWhile, ha, iht.1]
    · simp [List.dropWhile, ha, iht.2]

/-- `takeWhile` keeps a list all of whose elements satisfy the class. -/
theorem takeWhile_all (p : Char → Bool) :
    ∀ l : List Char, (∀ c ∈ l, p c = true) → l.takeWhile p = l := by
  intro l
  induction l with
  | nil => intro _; rfl
  | cons a t ih =>
    intro h1
    have ha : p a = true := h1 a (List.mem_cons_self a t)
    simp [List.takeWhile, ha, ih fun c hc => h1 c (List.mem_cons_of_mem a hc)]

/-- Anchored match of the routing pattern on a message of exactly the
shape `query target=I uid=U hotkey=H`, with nonempty space-free `I` and
`H` and a nonempty `U` over `[0-9+]`. -/
theorem matchQueryAt_exact (i u h : List Char)
    (hi : i ≠ []) (hiS : ∀ c ∈ i, nonSpace c = true)
    (hu : u ≠ []) (huC : ∀ c ∈ u, uidChar c = true)
    (hh : h ≠ []) (hhS : ∀ c ∈ h, nonSpace c = true) :
    matchQueryAt (qLit ++ (i ++ (uidLit ++ (u ++ (hkLit ++ h)))))
      = some (i.asString, u.asString, h.asString) := by
  have h2a : ∀ c, (uidLit ++ (u ++ (hkLit ++ h))).head? = some c → nonSpace c = false := by
    intro c hc
    have h' : some ' ' = some c := hc
    cases h'
    decide
  have s1 := span_exact nonSpace (uidLit ++ (u ++ (hkLit ++ h))) h2a i hiS
  have h2b : ∀ c, (hkLit ++ h).head? = some c → uidChar c = false := by
    intro c hc
    have h' : some ' ' = some c := hc
    cases h'
    decide
  have s2 := span_exact uidChar (hkLit ++ h) h2b u huC
  have s3 := takeWhile_all nonSpace h hhS
  unfold matchQueryAt
  rw [stripLit_append]
  simp only [s1.1, s1.2, stripLit_append, s2.1, s2.2, s3, if_neg hi, if_neg hu, if_neg hh]

/-- `re.search` succeeds at the first position whenever the anchored
match does. -/
theorem searchQuery_of_matchAt {s : List Char} {t : String × String × String}
    (hm : matchQueryAt s = some t) : searchQuery s = some t := by
  cases s with
  | nil =>
    rw [show matchQueryAt [] = none from rfl] at hm
    exact Option.noConfusion hm
  | cons a l =>
    unfold searchQuery
    rw [hm]

/-! Helper lemmas for the parent-id invariant. -/

/-- The last element of a list is a member. -/
theorem mem_of_getLastEq :
    ∀ {l : List Synthetic} {a : Synthetic}, l.getLast? = some a → a ∈ l := by
  intro l
  induction l with
  | nil => intro a hl; exact Option.noConfusion hl
  | cons x xs ih =>
    intro a hl
    cases xs with
    | nil =>
      simp [List.getLast?] at hl
      simp [hl]
    | cons y ys =>
      rw [List.getLast?_cons_cons] at hl
      exact List.mem_cons_of_mem x (ih hl)

/-- Members of `dropLast` are members of the list. -/
theorem mem_of_mem_dropLast {l : List Synthetic} {a : Synthetic}
    (h : a ∈ l.dropLast) : a ∈ l :=
  (List.dropLast_sublist l).subset h

/-- Processing one chunk preserves the invariant that every record in
the list carries the cycle's parent id. -/
theorem processChunk_parentInv {pid chuteId : String}
    {recs recs2 : List Synthetic} {c : Chunk}
    (h0 : ∀ s ∈ recs, s.parent_invocation_id = pid)
    (h : processChunk pid chuteId recs c = .ok recs2) :
    ∀ s ∈ recs2, s.parent_invocation_id = pid := by
  unfold processChunk at h
  cases hx : extract_target c with
  | error e => simp only [hx] at h; exact Except.noConfusion h
  | ok ot =>
    simp only [hx] at h
    cases ot with
    | some t =>
      cases htr : c.trace with
      | none => simp only [htr] at h; exact Except.noConfusion h
      | some tr =>
        simp only [htr] at h
        cases hts : tr.timestamp with
        | none => simp only [hts] at h; exact Except.noConfusion h
        | some tsv =>
          simp only [hts] at h
          have h' : recs ++ [mkSynthetic pid chuteId t] = recs2 := Except.ok.inj h
          intro s hs
          rw [← h'] at hs
          rcases List.mem_append.mp hs with hs | hs
          · exact h0 s hs
          · rcases List.mem_singleton.mp hs with rfl
            rfl
    | none =>
      cases hy : extract_target_error c with
      | error e => simp only [hy] at h; exact Except.noConfusion h
      | ok ot2 =>
        simp only [hy] at h
        cases ot2 with
        | none =>
          have h' : recs = recs2 := Except.ok.inj h
          rw [← h']; exact h0
        | some t2 =>
          unfold ingestRoutingError at h
          cases hl : recs.getLast? with
          | none => simp only [hl] at h; exact Except.noConfusion h
          | some last =>
            simp only [hl] at h
            by_cases h1 : t2.instance_id = last.instance_id
            · by_cases h2 : t2.invocation_id = last.invocation_id
              · rw [if_pos h1, if_pos h2] at h
                have h' : recs.dropLast ++ [{ last with has_error := true }] = recs2 :=
                  Except.ok.inj h
                intro s hs
                rw [← h'] at hs
                rcases List.mem_append.mp hs with hs | hs
                · exact h0 s (mem_of_mem_dropLast hs)
                · rcases List.mem_singleton.mp hs with rfl
                  exact h0 last (mem_of_getLastEq hl)
              · rw [if_pos h1, if_neg h2] at h; exact Except.noConfusion h
            · rw [if_neg h1] at h; exact Except.noConfusion h

/-- Consuming a stream preserves the parent-id invariant. -/
theorem runStream_parentInv {pid chuteId : String} :
    ∀ (items : List StreamItem) (recs recs2 : List Synthetic),
      (∀ s ∈ recs, s.parent_invocation_id = pid) →
      runStream pid chuteId recs items = some recs2 →
      ∀ s ∈ recs2, s.parent_invocation_id = pid := by
  intro items
  induction items with
  | nil =>
    intro recs recs2 h0 h
    have h' : recs = recs2 := Option.some.inj h
    rw [← h']; exact h0
  | cons item rest ih =>
    intro recs recs2 h0 h
    unfold runStream at h
    cases hpi : processItem pid chuteId recs item with
    | error e => rw [hpi] at h; exact Option.noConfusion h
    | ok mid =>
      rw [hpi] at h
      have hmid : ∀ s ∈ mid, s.parent_invocation_id = pid := by
        cases item with
        | noData =>
          have h' : recs = mid := Except.ok.inj hpi
          rw [← h']; exact h0
        | dataMalformed => exact Except.noConfusion hpi
        | dataChunk c => exact processChunk_parentInv h0 hpi
        | ioFailure => exact Except.noConfusion hpi
      exact ih mid recs2 hmid h

/-! Claim theorems. -/

/-- C1: in the correlation engine of `_perform_request`, every routing
event appends exactly one new record with `has_error = false`; an error
event whose `instance_id` and `invocation_id` equal those of the
last-appended record sets exactly that record's `has_error` to `true`
and leaves every earlier record untouched; and the two ingest sequences
[RoutingEvent(A), RoutingErrorEvent(A)] and [RoutingEvent(A),
RoutingEvent(B), RoutingErrorEvent(B)] produce, respectively, exactly
one record with `has_error = true`, and two records in arrival order
with only B's record flagged. -/
theorem c1_correlation_engine
    (parentId chuteId : String) (recs0 recs : List Synthetic)
    (e t : Target) (last : Synthetic)
    (hlast : recs.getLast? = some last)
    (hinst : t.instance_id = last.instance_id)
    (hinv : t.invocation_id = last.invocation_id) :
    ingestRouting parentId chuteId recs0 e
        = recs0 ++ [{ parent_invocation_id := parentId,
                      invocation_id := e.invocation_id,
                      instance_id := e.instance_id, chute_id := chuteId,
                      miner_uid := e.uid, miner_hotkey := e.hotkey,
                      has_error := false }]
    ∧ ingestRoutingError recs t
        = .ok (recs.dropLast ++ [{ last with has_error := true }])
    ∧ runStream "p0" "c0" [] [.dataChunk chunkA, .dataChunk chunkErrA]
        = some [{ recA with has_error := true }]
    ∧ runStream "p0" "c0" []
        [.dataChunk chunkA, .dataChunk chunkB, .dataChunk chunkErrB]
        = some [recA, { recB with has_error := true }] := by
  refine ⟨rfl, ?_, by decide, by decide⟩
  unfold ingestRoutingError
  simp only [hlast, if_pos hinst, if_pos hinv]

/-- Closed instantiation of `c1_correlation_engine` at concrete inputs. -/
theorem c1_correlation_engine_witness :
    ingestRouting "p0" "c0" [recA]
        { instance_id := "i2", invocation_id := "v2", uid := "2",
          hotkey := "h2", error := none }
        = [recA] ++ [{ parent_invocation_id := "p0", invocation_id := "v2",
                       instance_id := "i2", chute_id := "c0",
                       miner_uid := "2", miner_hotkey := "h2",
                       has_error := false }]
    ∧ ingestRoutingError [recA]
        { instance_id := "i1", invocation_id := "v1", uid := "1",
          hotkey := "h1", error := some "boom" }
        = .ok ([recA].dropLast ++ [{ recA with has_error := true }])
    ∧ runStream "p0" "c0" [] [.dataChunk chunkA, .dataChunk chunkErrA]
        = some [{ recA with has_error := true }]
    ∧ runStream "p0" "c0" []
        [.dataChunk chunkA, .dataChunk chunkB, .dataChunk chunkErrB]
        = some [recA, { recB with has_error := true }] :=
  c1_correlation_engine "p0" "c0" [recA] [recA]
    { instance_id := "i2", invocation_id := "v2", uid := "2",
      hotkey := "h2", error := none }
    { instance_id := "i1", invocation_id := "v1", uid := "1",
      hotkey := "h1", error := some "boom" }
    recA (by decide) (by decide) (by decide)

/-- C2 counterexample: the claim says any non-whitespace uid is
extracted, but the uid group of the pattern is `[0-9+]+`; for the
message `query target=i1 uid=x hotkey=h1` (uid `x`, non-whitespace) the
classifier finds no match and yields no routing event at all, instead of
a RoutingEvent with uid `x`. -/
theorem c2_counterexample :
    extract_target
      { trace := some { timestamp := some "ts", invocation_id := some "v1",
                        message := some "query target=i1 uid=x hotkey=h1" },
        error := none, result := none }
      = .ok none := by decide

/-- C2 (amended): for a trace payload carrying an `invocation_id` whose
message is exactly `query target=I uid=U hotkey=H` with `I`, `H`
nonempty and space-free and `U` nonempty over the class `[0-9+]`,
`_extract_target` returns a routing target whose fields are exactly `I`,
`U`, `H`. -/
theorem c2_routing_extraction (i u h : List Char) (v : String)
    (ts e r : Option String)
    (hi : i ≠ []) (hiS : ∀ c ∈ i, nonSpace c = true)
    (hu : u ≠ []) (huC : ∀ c ∈ u, uidChar c = true)
    (hh : h ≠ []) (hhS : ∀ c ∈ h, nonSpace c = true) :
    extract_target
      { trace := some { timestamp := ts, invocation_id := some v,
                        message := some (String.mk (qLit ++ (i ++ (uidLit ++ (u ++ (hkLit ++ h)))))) },
        error := e, result := r }
      = .ok (some { instance_id := i.asString, invocation_id := v,
                    uid := u.asString, hotkey := h.asString, error := none }) := by
  have hm := matchQueryAt_exact i u h hi hiS hu huC hh hhS
  unfold extract_target
  simp only [searchQuery_of_matchAt hm]

/-- Closed instantiation of `c2_routing_extraction` at a concrete
routing message. -/
theorem c2_routing_extraction_witness :
    extract_target
      { trace := some { timestamp := some "t0", invocation_id := some "v7",
                        message := some (String.mk (qLit ++ (['i', '1'] ++ (uidLit ++ (['4', '2'] ++ (hkLit ++ ['h', 'k'])))))) },
        error := none, result := none }
      = .ok (some { instance_id := "i1", invocation_id := "v7",
                    uid := "42", hotkey := "hk", error := none }) :=
  c2_routing_extraction ['i', '1'] ['4', '2'] ['h', 'k'] "v7"
    (some "t0") none none
    (by decide) (by decide) (by decide) (by decide) (by decide) (by decide)

/-- C3 counterexample: with a stream that delivers one routing event and
is then interrupted by a transport failure, the claim requires the cycle
to return and persist the one record built so far; instead the catch-all
of `_perform_request` returns `None`, even though processing the same
stream up to the failure had produced that record. -/
theorem c3_counterexample :
    perform_request "c0" respInterrupted = none
    ∧ runStream "p0" "c0" [] [.dataChunk chunkA] = some [recA] := by decide

/-- C3 (amended): a stream-level I/O failure mid-read makes
`_perform_request` catch the exception and return `None`, discarding the
records built from the events already ingested; the cycle then raises
`TypeError` at `len(synthetics)` in `_perform_chat`, so nothing is
persisted. -/
theorem c3_stream_failure_discards (pid chuteId : String)
    (recs : List Synthetic) (rest : List StreamItem) :
    runStream pid chuteId recs (.ioFailure :: rest) = none
    ∧ perform_synthetic [goodChute] 0 respInterrupted true = .error .typeErr :=
  ⟨rfl, by decide⟩

/-- C4: on a non-success status `_perform_request` does return with no
records (line 234), but the cycle does not end cleanly: `_perform_chat`
then evaluates `len(synthetics)` on the `None` result, raising
`TypeError`, which propagates out of `perform_synthetic` uncaught — the
code contradicts the claim's (and its own warning-and-return) intent of
a clean `RequestRejected` outcome. -/
theorem c4_rejected_status_raises :
    perform_request "c0" respRejected = none
    ∧ perform_chat [goodChute] 0 respRejected = .error .typeErr
    ∧ perform_synthetic [goodChute] 0 respRejected true = .error .typeErr := by
  decide

/-- C5 counterexample: a malformed payload does not classify as `None`
and is not skipped — `json.loads` raises and the catch-all aborts the
whole cycle, so the surrounding well-formed routing events of the same
stream lose their records (the same stream without the malformed chunk
yields both records). -/
theorem c5_counterexample :
    perform_request "c0" respMalformedMid = none
    ∧ perform_request "c0" respTwoEvents = some [recA, recB] := by decide

/-- C5 (amended): a payload missing the diagnostic-trace field
classifies as `None` and is silently skipped without affecting the rest
of the stream, but a malformed (non-JSON) payload raises a decode error
that aborts the cycle and discards all records collected so far. -/
theorem c5_missing_trace_skipped (e r : Option String) (pid chuteId : String)
    (recs : List Synthetic) (rest : List StreamItem) :
    extract_target { trace := none, error := e, result := r } = .ok none
    ∧ processChunk pid chuteId recs { trace := none, error := e, result := r }
        = .ok recs
    ∧ runStream pid chuteId recs
        (.dataChunk { trace := none, error := e, result := r } :: rest)
        = runStream pid chuteId recs rest
    ∧ runStream pid chuteId recs (.dataMalformed :: rest) = none :=
  ⟨rfl, rfl, rfl, rfl⟩

/-- C6: an error event arriving on an empty record sequence raises
(`IndexError` from `synthetics[-1]`), an error event mismatching the
last-appended record raises (`AssertionError`); in either case the
raised failure makes `_perform_request` return `None` and the cycle
ends in a raised exception before the persistence block, committing
zero records. -/
theorem c6_protocol_violation
    (recs : List Synthetic) (t tm : Target) (last : Synthetic)
    (chutes : List Chute) (pick : Nat) (resp : HttpResponse) (ch : Chute)
    (commitOk : Bool)
    (hlast : recs.getLast? = some last)
    (hmis : tm.instance_id ≠ last.instance_id ∨ tm.invocation_id ≠ last.invocation_id)
    (hsel : get_vllm_chute chutes pick = some ch)
    (hreq : perform_request ch.chute_id resp = none) :
    ingestRoutingError [] t = .error .indexErr
    ∧ ingestRoutingError recs tm = .error .assertionErr
    ∧ perform_synthetic chutes pick resp commitOk = .error .typeErr := by
  refine ⟨rfl, ?_, ?_⟩
  · unfold ingestRoutingError
    simp only [hlast]
    rcases hmis with hm | hm
    · rw [if_neg hm]
    · by_cases h1 : tm.instance_id = last.instance_id
      · rw [if_pos h1, if_neg hm]
      · rw [if_neg h1]
  · unfold perform_synthetic perform_chat
    simp only [hsel, hreq]

/-- Closed instantiation of `c6_protocol_violation`: an orphan error
event and a mismatched error event both raise, and a cycle whose stream
opens with an orphan error event ends in a raised exception with
nothing persisted. -/
theorem c6_protocol_violation_witness :
    ingestRoutingError [] tOrphan = .error .indexErr
    ∧ ingestRoutingError [recA] tMismatch = .error .assertionErr
    ∧ perform_synthetic [goodChute] 0 respOrphanErr true = .error .typeErr :=
  c6_protocol_violation [recA] tOrphan tMismatch recA [goodChute] 0
    respOrphanErr goodChute true (by decide) (Or.inl (by decide))
    (by decide) (by decide)

/-- C7 counterexample: with a first cycle whose commit fails and a
second identical cycle that would commit one record, the loop records no
outcome and stops with the database error — the second cycle (which
alone commits `[recA]`) never runs, so the loop did not continue on
schedule. -/
theorem c7_counterexample :
    perform_synthetics [cycleFailCommit, cycleOk] = ([], some .dbErr)
    ∧ perform_synthetics [cycleOk] = ([some [recA]], none) := by decide

/-- C7 (amended): a persistence failure while committing a cycle's
record batch is re-raised by `get_session` and propagates out of
`perform_synthetic`; `perform_synthetics` has no exception handling, so
the loop aborts and no subsequent cycle runs (the failed batch is rolled
back and dropped). -/
theorem c7_persistence_failure_aborts (rest : List CycleInput) :
    perform_synthetics (cycleFailCommit :: rest) = ([], some .dbErr) := by
  have h : perform_synthetic cycleFailCommit.chutes cycleFailCommit.pick
      cycleFailCommit.resp cycleFailCommit.commitOk = .error .dbErr := by decide
  unfold perform_synthetics
  rw [h]

/-- C8: when no chute has an instance that is both active and verified,
`_get_vllm_chute` returns `None` and the cycle ends cleanly with no
records, no raised exception, and the persistence boundary never
invoked. -/
theorem c8_no_eligible_target
    (chutes : List Chute) (pick : Nat) (resp : HttpResponse) (commitOk : Bool)
    (hno : ∀ ch ∈ chutes, ∀ inst ∈ ch.instances,
      ¬(inst.active = true ∧ inst.verified = true)) :
    get_vllm_chute chutes pick = none
    ∧ perform_synthetic chutes pick resp commitOk = .ok none := by
  have hfil : vllmChutes chutes = [] := by
    unfold vllmChutes
    refine List.filter_eq_nil_iff.mpr ?_
    intro c hc hpc
    simp only [Bool.and_eq_true, List.any_eq_true, beq_iff_eq] at hpc
    obtain ⟨⟨-, inst, hin, hai⟩, -⟩ := hpc
    exact hno c hc inst hin hai
  constructor
  · unfold get_vllm_chute
    simp [hfil]
  · unfold perform_synthetic perform_chat get_vllm_chute
    simp [hfil]

/-- Closed instantiation of `c8_no_eligible_target` on a fleet whose
only chute has an active but unverified instance. -/
theorem c8_no_eligible_target_witness :
    get_vllm_chute [chuteUnverified] 0 = none
    ∧ perform_synthetic [chuteUnverified] 0 respOnlyA true = .ok none :=
  c8_no_eligible_target [chuteUnverified] 0 respOnlyA true (by decide)

/-- C9: every record of a cycle carries the parent invocation id read
from the `X-Chutes-InvocationID` response header before the body is
consumed; `perform_request` is a pure function of the current response,
so the identifier is independent of any previous cycle. -/
theorem c9_parent_invocation_constant (chuteId : String)
    (resp : HttpResponse) (pid : String) (recs : List Synthetic)
    (hhdr : resp.parentHeader = some pid)
    (hreq : perform_request chuteId resp = some recs) :
    ∀ s ∈ recs, s.parent_invocation_id = pid := by
  unfold perform_request at hreq
  by_cases hst : resp.status ≠ 200
  · rw [if_pos hst] at hreq; exact Option.noConfusion hreq
  · rw [if_neg hst] at hreq
    simp only [hhdr] at hreq
    exact runStream_parentInv resp.content [] recs (by intro s hs; cases hs) hreq

/-- Closed instantiation of `c9_parent_invocation_constant` on the
single record of `respOnlyA`. -/
theorem c9_parent_invocation_constant_witness :
    recA.parent_invocation_id = "p0" :=
  c9_parent_invocation_constant "c0" respOnlyA "p0" [recA] rfl (by decide)
    recA (by decide)

/-- C10: a chunk whose trace message matches the routing pattern but
whose trace has no `invocation_id` makes `_extract_target` raise the
pydantic validation error instead of returning an event or `None`, and
inside `_perform_request` this exception aborts the whole cycle: the
stream that had already produced `recA` returns `None`, while the same
stream without the offending chunk returns `[recA]`. -/
theorem c10_validation_error_aborts :
    extract_target chunkNoInvId = .error .validation
    ∧ perform_request "c0" respWithBadTrace = none
    ∧ perform_request "c0" respOnlyA = some [recA] := by decide

end ChutesAudit
